import Mathlib

/-!
Shallow embedding of the process-orchestration core of virtnbdbackup:
the command builders and export-server starters of
`src/libvirtnbdbackup/qemu/util.py` and the two signal-driven cleanup
handlers of `src/libvirtnbdbackup/sighandle.py`.

Command builders are embedded as pure functions from their string/number
inputs to the argument list (a `List String`, one entry per Python list
element).  Python f-strings become string concatenation; `toString` is used
where an integer is interpolated.  The fallible remote executor
(`args.sshClient.run`) and the Python exceptions that matter to the claims
(`sshError` from the ssh layer, `FileNotFoundError` from `os.remove`) are
made explicit: fallible steps return `Except`, and each handler run is
summarised by a trace recording which steps ran, what was logged, whether
an exception escaped uncaught, and the exit status reached (if any).
-/

namespace qemu

/-- Mirror of the repository process handle (`processinfo.processInfo`):
pid plus the pid-file and log-file paths recorded at spawn time. -/
structure processInfo where
  pid : Nat
  pidFile : String
  logFile : String
deriving DecidableEq

/-- Embeds the `util` class of `qemu/util.py`: its only instance state is
the export name passed to the constructor. -/
structure util where
  exportName : String
deriving DecidableEq

namespace util

/-- Embeds `util.create` (qemu/util.py lines 55-77): build the
`qemu-img create` argument list.  The Python appends `qcowOptions` only
when the list is truthy (non-empty). -/
def create (targetFile : String) (fileSize : Nat) (diskFormat : String)
    (qcowOptions : List String) : List String :=
  let cmd := ["qemu-img", "create", "-f", diskFormat, targetFile, "-o",
    "size=" ++ toString fileSize]
  if qcowOptions.isEmpty then cmd else cmd ++ qcowOptions

/-- The TLS object element appended by `util._addTls`
(qemu/util.py line 117), named so theorems can refer to it. -/
def tlsObject (certpath : String) : String :=
  "tls-creds-x509,id=tls0,endpoint=server,dir=" ++ certpath ++ ",verify-peer=false"

/-- Embeds `util._addTls` (qemu/util.py lines 110-120): extend a command
with the three TLS elements.  Note `--tls-creds tls0` is a single list
element in the source. -/
def _addTls (cmd : List String) (certpath : String) : List String :=
  cmd ++ ["--object",
    "tls-creds-x509,id=tls0,endpoint=server,dir=" ++ certpath ++ ",verify-peer=false",
    "--tls-creds tls0"]

/-- Result of a builder that also derives the pid-file path it passes to
the process runner. -/
structure BuiltServer where
  cmd : List String
  pidFile : String
deriving DecidableEq

/-- Embeds `util.startBackupNbdServer` (qemu/util.py lines 180-202) up to
the `command.run(cmd, pidFile=pidFile)` call: the argument list that is
built and the pid-file path passed alongside it. -/
def startBackupNbdServer (u : util) (diskFormat diskFile socketFile bitMap : String) :
    BuiltServer :=
  let bitmapOpt := if bitMap ≠ "" then "--bitmap=" ++ bitMap else "--"
  let pidFile := socketFile ++ ".pid"
  { cmd := ["qemu-nbd", "-r", "--format=" ++ diskFormat, "-x", u.exportName,
      diskFile, "-k", socketFile, "-t", "-e 2", "--fork", "--detect-zeroes=on",
      "--pid-file=" ++ pidFile, bitmapOpt],
    pidFile := pidFile }

/-- Embeds the command built by `util.startRemoteRestoreNbdServer`
(qemu/util.py lines 122-143): the temp-file allocator `_gt` performs IO, so
the allocated pid-file and log-file paths are parameters. -/
def startRemoteRestoreNbdServerCmd (u : util) (targetFile : String) (nbdPort : Nat)
    (pidFile : String) (tls : Bool) (tlsCert logFile : String) : List String :=
  let cmd := ["qemu-nbd", "--discard=unmap", "--format=qcow2", "-x", u.exportName,
    targetFile, "-p", toString nbdPort, "--pid-file", pidFile, "--fork"]
  let cmd := if tls then _addTls cmd tlsCert else cmd
  cmd ++ ["> " ++ logFile ++ " 2>&1"]

/-- Embeds the command built by `util.startRemoteBackupNbdServer`
(qemu/util.py lines 204-230): read-only export over a TCP port with
optional bind address, optional bitmap and optional TLS, redirected into
the log file. -/
def startRemoteBackupNbdServerCmd (u : util) (diskFormat diskPath : String)
    (port : Nat) (pidFile bitMap nbdIp : String) (tls : Bool)
    (tlsCert logFile : String) : List String :=
  let cmd := ["qemu-nbd", "-r", "--format=" ++ diskFormat, "-x", u.exportName,
    diskPath, "-p", toString port, "--pid-file", pidFile, "--fork"]
  let cmd := if nbdIp ≠ "" then cmd ++ ["-b", nbdIp] else cmd
  let cmd := if bitMap ≠ "" then cmd ++ ["--bitmap=" ++ bitMap] else cmd
  let cmd := if tls then _addTls cmd tlsCert else cmd
  cmd ++ ["> " ++ logFile ++ " 2>&1"]

/-- Outcome of one call to the abstract remote executor
(`args.sshClient.run`): either a process handle or the `sshError`
exception. -/
inductive sshOutcome where
  | ok (p : processInfo)
  | sshErr
deriving DecidableEq

/-- Result of a remote start operation: the value returned or the error
re-raised, together with the error-path log lines emitted. -/
structure remoteCall where
  result : Except Unit processInfo
  errorLog : List String

/-- Embeds `util.startRemoteRestoreNbdServer` (qemu/util.py lines
122-148) around an abstract remote executor `sshRun`: on `sshError` the
`except` block logs the log-file path and re-raises (`raise`), modelled as
an `Except.error` result. -/
def startRemoteRestoreNbdServer (u : util) (sshRun : String → sshOutcome)
    (targetFile : String) (nbdPort : Nat) (pidFile : String) (tls : Bool)
    (tlsCert logFile : String) : remoteCall :=
  match sshRun (String.intercalate " "
      (u.startRemoteRestoreNbdServerCmd targetFile nbdPort pidFile tls tlsCert logFile)) with
  | sshOutcome.ok p => { result := Except.ok p, errorLog := [] }
  | sshOutcome.sshErr =>
    { result := Except.error (),
      errorLog := ["Executing command failed: check [" ++ logFile ++ "] for errors."] }

/-- Embeds `util.startRemoteBackupNbdServer` (qemu/util.py lines 204-235)
around an abstract remote executor, with the same `except sshError` block
as the restore variant. -/
def startRemoteBackupNbdServer (u : util) (sshRun : String → sshOutcome)
    (diskFormat diskPath : String) (port : Nat) (pidFile bitMap nbdIp : String)
    (tls : Bool) (tlsCert logFile : String) : remoteCall :=
  match sshRun (String.intercalate " "
      (u.startRemoteBackupNbdServerCmd diskFormat diskPath port pidFile bitMap
        nbdIp tls tlsCert logFile)) with
  | sshOutcome.ok p => { result := Except.ok p, errorLog := [] }
  | sshOutcome.sshErr =>
    { result := Except.error (),
      errorLog := ["Executing command failed: check [" ++ logFile ++ "] for errors."] }

/-- Embeds the argument list built by `util.disconnect` (qemu/util.py
lines 237-241).  The method reads no instance state: the list depends only
on the device. -/
def disconnectCmd (u : util) (device : String) : List String :=
  ["qemu-nbd", "-d", device]

/-- Outcome of running a disconnect command against a set of currently
connected devices: the devices still connected afterwards, whether an
error escalated to the caller, and what was logged. -/
structure disconnectOutcome where
  connectedAfter : List String
  raised : Bool
  logged : List String
deriving DecidableEq

/-- Modelled from the spec: `command.run` (module
`libvirtnbdbackup.qemu.command`) is not under src/.  Sections 4.2 and 4.4
of the spec describe running the disconnect invocation: a connected device
is detached; disconnecting an already-stopped export is "a logged
no-op/failure", never an error escalated to the caller. -/
def runDisconnectCommand (connected : List String) (cmd : List String) :
    disconnectOutcome :=
  match cmd with
  | ["qemu-nbd", "-d", dev] =>
    if connected.contains dev then
      { connectedAfter := connected.erase dev, raised := false,
        logged := ["disconnected [" ++ dev ++ "]"] }
    else
      { connectedAfter := connected, raised := false,
        logged := ["disconnect failed (no-op) [" ++ dev ++ "]"] }
  | _ => { connectedAfter := connected, raised := false, logged := [] }

/-- Embeds `util.disconnect` (qemu/util.py lines 237-241): log the
action, build `qemu-nbd -d <device>` and hand it to the command runner
(modelled above); the wrapper adds no error handling of its own. -/
def disconnect (u : util) (connected : List String) (device : String) :
    disconnectOutcome :=
  runDisconnectCommand connected (u.disconnectCmd device)

end util

end qemu

namespace sighandle

/-- Embeds Python `os.remove` over a filesystem modelled as the list of
existing paths: removing an existing path succeeds, removing a missing
path raises `FileNotFoundError`. -/
def osRemove (fs : List String) (path : String) : Except String (List String) :=
  if fs.contains path then Except.ok (fs.erase path)
  else Except.error ("FileNotFoundError: " ++ path)

/-- Trace of one run of the map-variant cleanup handler. -/
structure MapTrace where
  disconnected : Bool
  removedBlockMap : Bool
  removedLogFile : Bool
  killedPid : Bool
  exitCode : Option Nat
  raised : Option String
deriving DecidableEq

/-- Embeds `Map.catch` (sighandle.py lines 49-62).  The statements run in
source order with no exception handling of any kind, so a step that raises
aborts every later step and the exception propagates out of the handler.
The disconnect step and `lib.killProc` are external collaborators the spec
describes as best-effort and non-raising, so they are modelled as
succeeding; the two `os.remove` calls follow Python semantics (raise
`FileNotFoundError` when the path does not exist); `sys.exit(0)` is
modelled as reaching exit code 0. -/
def Map.catchSignal (fs : List String) (blockMapName logFileName : String) : MapTrace :=
  match osRemove fs blockMapName with
  | Except.error e =>
    { disconnected := true, removedBlockMap := false, removedLogFile := false,
      killedPid := false, exitCode := none, raised := some e }
  | Except.ok fs1 =>
    match osRemove fs1 logFileName with
    | Except.error e =>
      { disconnected := true, removedBlockMap := true, removedLogFile := false,
        killedPid := false, exitCode := none, raised := some e }
    | Except.ok _ =>
      { disconnected := true, removedBlockMap := true, removedLogFile := true,
        killedPid := true, exitCode := some 0, raised := none }

/-- Trace of one run of the backup-variant cleanup handler. -/
structure BackupTrace where
  stoppedBackup : Bool
  exitCode : Option Nat
  raised : Option String
deriving DecidableEq

/-- Embeds `Backup.catch` (sighandle.py lines 32-46): when the job is not
offline it calls `virtClient.stopBackup(domObj)` with no exception
handling (the collaborator is a parameter: `Except.ok` if the call
returns, `Except.error` if it raises), then `sys.exit(1)`. -/
def Backup.catchSignal (offline : Bool) (stopBackup : Except String Unit) : BackupTrace :=
  if offline then { stoppedBackup := false, exitCode := some 1, raised := none }
  else
    match stopBackup with
    | Except.ok _ => { stoppedBackup := true, exitCode := some 1, raised := none }
    | Except.error e => { stoppedBackup := true, exitCode := none, raised := some e }

end sighandle

/-- First character of a string, used to separate argument-list elements
that begin differently. -/
def strHead (s : String) : Option Char := s.data.head?

/-- Character at index i of a string, used to separate argument-list
elements that agree on a shared flag prefix. -/
def strGet (s : String) (i : Nat) : Option Char := s.data[i]?

/-! Helper lemmas about string disequality, used to show that the
variable parts of an argument list cannot collide with the fixed flag
elements. -/

theorem strNe_of_length {s t : String} (h : s.length ≠ t.length) : s ≠ t :=
  fun e => h (congrArg String.length e)

theorem strNe_of_strHead {s t : String} (h : strHead s ≠ strHead t) : s ≠ t :=
  fun e => h (congrArg strHead e)

theorem strHead_append {p : String} (x : String) {c : Char}
    (h : strHead p = some c) : strHead (p ++ x) = some c := by
  unfold strHead at *
  rw [String.data_append]
  cases hd : p.data with
  | nil => rw [hd] at h; simp at h
  | cons a as =>
    rw [hd] at h
    simp only [List.cons_append, List.head?_cons] at h ⊢
    exact h

theorem ne_append_left {a p : String} (x : String) (h : a.length < p.length) :
    a ≠ p ++ x := by
  apply strNe_of_length
  rw [String.length_append]
  omega

theorem ne_append_both {a p q : String} (x : String)
    (h : a.length < p.length + q.length) : a ≠ p ++ x ++ q := by
  apply strNe_of_length
  rw [String.length_append, String.length_append]
  omega

theorem strGet_append {p : String} (x : String) (i : Nat) (h : i < p.length) :
    strGet (p ++ x) i = strGet p i := by
  unfold strGet
  rw [String.data_append]
  exact List.getElem?_append_left h

theorem strNe_of_strGet {s t : String} (i : Nat) (h : strGet s i ≠ strGet t i) :
    s ≠ t :=
  fun e => h (congrArg (fun u => strGet u i) e)

theorem strHead_tlsObject (cert : String) :
    strHead (qemu.util.tlsObject cert) = some 't' := by
  unfold qemu.util.tlsObject
  exact strHead_append _ (strHead_append _ (by decide))

theorem strHead_redirect (logFile : String) :
    strHead ("> " ++ logFile ++ " 2>&1") = some '>' := by
  exact strHead_append _ (strHead_append _ (by decide))

/-- C8: for a create invocation with size 1073741824 bytes, format
"qcow2", target path T and no extra format options, the built argument
list is exactly qemu-img create -f qcow2 T -o size=1073741824, in that
order with no additional elements. -/
theorem C8_create_command_exact (T : String) :
    qemu.util.create T 1073741824 "qcow2" [] =
      ["qemu-img", "create", "-f", "qcow2", T, "-o", "size=1073741824"] := by
  unfold qemu.util.create
  simp
  decide

/-- C5: for every local backup export request with socket path S, the
derived pid-file path recorded for the spawned process is exactly S
followed by ".pid", and that same path is the one passed on the command
line via the pid-file flag. -/
theorem C5_pidfile_derivation (en df dfile sock bm : String) :
    (qemu.util.startBackupNbdServer ⟨en⟩ df dfile sock bm).pidFile = sock ++ ".pid" ∧
    "--pid-file=" ++ (sock ++ ".pid") ∈
      (qemu.util.startBackupNbdServer ⟨en⟩ df dfile sock bm).cmd := by
  refine ⟨rfl, ?_⟩
  unfold qemu.util.startBackupNbdServer
  simp

/-- C10: the disconnect command depends only on the device, never on the
export name the wrapper instance was constructed with: any two instances
build the same list qemu-nbd -d device, and in particular the map-cleanup
path, which constructs the wrapper with an empty export name solely to
disconnect, builds that same well-formed command. -/
theorem C10_disconnect_export_name_independent (n1 n2 d : String) :
    qemu.util.disconnectCmd ⟨n1⟩ d = qemu.util.disconnectCmd ⟨n2⟩ d ∧
    qemu.util.disconnectCmd ⟨n1⟩ d = ["qemu-nbd", "-d", d] ∧
    qemu.util.disconnectCmd ⟨""⟩ d = ["qemu-nbd", "-d", d] :=
  ⟨rfl, rfl, rfl⟩

/-- C1 counterexample: invoking the map-variant cleanup handler when the
block-map file has already been deleted (filesystem holds only the nbdkit
log file) does NOT remove the log file and does NOT kill the pid: the
unguarded os.remove of the block map raises and aborts the remaining
steps, refuting the claim that every step is attempted. -/
theorem C1_map_cleanup_counterexample :
    (sighandle.Map.catchSignal ["/tmp/nbdkit.log"] "/tmp/vm.blockmap" "/tmp/nbdkit.log").removedLogFile
        = false ∧
    (sighandle.Map.catchSignal ["/tmp/nbdkit.log"] "/tmp/vm.blockmap" "/tmp/nbdkit.log").killedPid
        = false ∧
    (sighandle.Map.catchSignal ["/tmp/nbdkit.log"] "/tmp/vm.blockmap" "/tmp/nbdkit.log").raised
        = some "FileNotFoundError: /tmp/vm.blockmap" := by
  decide

/-- C1 amended: the four teardown steps of the map-variant cleanup
handler run in fixed order but each is attempted only while all earlier
steps have succeeded; in particular, when the block-map file has already
been deleted before the handler runs, the removal raises
FileNotFoundError, and the handler neither removes the log file nor kills
the pid nor reaches its exit call. -/
theorem C1_map_cleanup_amended (fs : List String) (bm lf : String)
    (h : fs.contains bm = false) :
    (sighandle.Map.catchSignal fs bm lf).disconnected = true ∧
    (sighandle.Map.catchSignal fs bm lf).removedBlockMap = false ∧
    (sighandle.Map.catchSignal fs bm lf).removedLogFile = false ∧
    (sighandle.Map.catchSignal fs bm lf).killedPid = false ∧
    (sighandle.Map.catchSignal fs bm lf).exitCode = none ∧
    (sighandle.Map.catchSignal fs bm lf).raised = some ("FileNotFoundError: " ++ bm) := by
  have hn : bm ∉ fs := by simpa using h
  unfold sighandle.Map.catchSignal sighandle.osRemove
  simp [hn]

theorem C1_map_cleanup_amended_witness :
    (sighandle.Map.catchSignal ["/run/map.log"] "/run/map.blockmap" "/run/map.log").disconnected = true ∧
    (sighandle.Map.catchSignal ["/run/map.log"] "/run/map.blockmap" "/run/map.log").removedBlockMap = false ∧
    (sighandle.Map.catchSignal ["/run/map.log"] "/run/map.blockmap" "/run/map.log").removedLogFile = false ∧
    (sighandle.Map.catchSignal ["/run/map.log"] "/run/map.blockmap" "/run/map.log").killedPid = false ∧
    (sighandle.Map.catchSignal ["/run/map.log"] "/run/map.blockmap" "/run/map.log").exitCode = none ∧
    (sighandle.Map.catchSignal ["/run/map.log"] "/run/map.blockmap" "/run/map.log").raised =
      some ("FileNotFoundError: " ++ "/run/map.blockmap") :=
  C1_map_cleanup_amended ["/run/map.log"] "/run/map.blockmap" "/run/map.log" (by decide)

/-- C2 counterexample: a signal delivery to the map-variant handler on a
state where the temporary block-map file is already gone makes the
handler re-raise the uncaught FileNotFoundError instead of reaching its
fixed exit status zero, refuting the claim that each cleanup handler
always reaches process termination with its fixed exit status. -/
theorem C2_fixed_exit_counterexample :
    (sighandle.Map.catchSignal [] "/tmp/map.blockmap" "/tmp/map.log").exitCode = none ∧
    (sighandle.Map.catchSignal [] "/tmp/map.blockmap" "/tmp/map.log").raised =
      some "FileNotFoundError: /tmp/map.blockmap" := by
  decide

/-- C2 amended: when no cleanup step raises — for the backup variant, the
job is offline or the stop-backup call returns; for the map variant, both
temporary files still exist — each handler reaches its fixed exit status
(backup: 1, map: 0) with nothing re-raised; a raising step instead
propagates the exception out of the handler uncaught. -/
theorem C2_fixed_exit_amended (offline : Bool) (stop : Except String Unit)
    (fs : List String) (bm lf : String)
    (hb : offline = true ∨ stop = Except.ok ())
    (hm1 : fs.contains bm = true) (hm2 : (fs.erase bm).contains lf = true) :
    ((sighandle.Backup.catchSignal offline stop).exitCode = some 1 ∧
      (sighandle.Backup.catchSignal offline stop).raised = none) ∧
    ((sighandle.Map.catchSignal fs bm lf).exitCode = some 0 ∧
      (sighandle.Map.catchSignal fs bm lf).raised = none) := by
  constructor
  · rcases hb with h | h
    · simp [sighandle.Backup.catchSignal, h]
    · cases offline <;> simp [sighandle.Backup.catchSignal, h]
  · have hm1n : bm ∈ fs := by simpa using hm1
    have hm2n : lf ∈ fs.erase bm := by simpa using hm2
    unfold sighandle.Map.catchSignal sighandle.osRemove
    simp [hm1n, hm2n]

theorem C2_fixed_exit_amended_witness :
    ((sighandle.Backup.catchSignal true (Except.ok ())).exitCode = some 1 ∧
      (sighandle.Backup.catchSignal true (Except.ok ())).raised = none) ∧
    ((sighandle.Map.catchSignal ["/run/a", "/run/b"] "/run/a" "/run/b").exitCode = some 0 ∧
      (sighandle.Map.catchSignal ["/run/a", "/run/b"] "/run/a" "/run/b").raised = none) :=
  C2_fixed_exit_amended true (Except.ok ()) ["/run/a", "/run/b"] "/run/a" "/run/b"
    (Or.inl rfl) (by decide) (by decide)

/-- The modelled command runner never escalates an error, whatever the
command and device state. -/
theorem runDisconnect_never_raises (connected : List String) (cmd : List String) :
    (qemu.util.runDisconnectCommand connected cmd).raised = false := by
  unfold qemu.util.runDisconnectCommand
  split
  · split <;> rfl
  · rfl

/-- C7: disconnecting the same device twice in succession never escalates
an error past the second call: the first call detaches (or no-ops) and
the second call is a logged no-op/failure, with no error raised to the
caller by either call. -/
theorem C7_disconnect_idempotent (en : String) (connected : List String) (device : String) :
    (qemu.util.disconnect ⟨en⟩ connected device).raised = false ∧
    (qemu.util.disconnect ⟨en⟩
      (qemu.util.disconnect ⟨en⟩ connected device).connectedAfter device).raised = false :=
  ⟨runDisconnect_never_raises _ _, runDisconnect_never_raises _ _⟩

/-- C6: when the remote executor fails with the remote-execution error
(sshError), both the remote restore and the remote backup start operations
log a message naming the allocated log-file path and then re-raise the
same error to the caller: the result on that path is always the error,
never a returned process handle. -/
theorem C6_remote_failure_logged_and_reraised
    (sshRun1 sshRun2 : String → qemu.util.sshOutcome)
    (en1 tf : String) (port1 : Nat) (pidF1 : String) (tls1 : Bool) (cert1 logF1 : String)
    (en2 df dp : String) (port2 : Nat) (pidF2 bm ip : String) (tls2 : Bool) (cert2 logF2 : String)
    (h1 : sshRun1 (String.intercalate " "
        (qemu.util.startRemoteRestoreNbdServerCmd ⟨en1⟩ tf port1 pidF1 tls1 cert1 logF1)) =
      qemu.util.sshOutcome.sshErr)
    (h2 : sshRun2 (String.intercalate " "
        (qemu.util.startRemoteBackupNbdServerCmd ⟨en2⟩ df dp port2 pidF2 bm ip tls2 cert2 logF2)) =
      qemu.util.sshOutcome.sshErr) :
    ((qemu.util.startRemoteRestoreNbdServer ⟨en1⟩ sshRun1 tf port1 pidF1 tls1 cert1 logF1).result =
        Except.error () ∧
      ("Executing command failed: check [" ++ logF1 ++ "] for errors.") ∈
        (qemu.util.startRemoteRestoreNbdServer ⟨en1⟩ sshRun1 tf port1 pidF1 tls1 cert1 logF1).errorLog) ∧
    ((qemu.util.startRemoteBackupNbdServer ⟨en2⟩ sshRun2 df dp port2 pidF2 bm ip tls2 cert2 logF2).result =
        Except.error () ∧
      ("Executing command failed: check [" ++ logF2 ++ "] for errors.") ∈
        (qemu.util.startRemoteBackupNbdServer ⟨en2⟩ sshRun2 df dp port2 pidF2 bm ip tls2 cert2 logF2).errorLog) := by
  unfold qemu.util.startRemoteRestoreNbdServer qemu.util.startRemoteBackupNbdServer
  rw [h1, h2]
  simp

theorem C6_remote_failure_logged_and_reraised_witness :
    ((qemu.util.startRemoteRestoreNbdServer ⟨"sda"⟩ (fun _ => qemu.util.sshOutcome.sshErr)
        "/images/vm.qcow2" 10809 "/tmp/r.pid" false "" "/tmp/r.log").result =
        Except.error () ∧
      ("Executing command failed: check [" ++ "/tmp/r.log" ++ "] for errors.") ∈
        (qemu.util.startRemoteRestoreNbdServer ⟨"sda"⟩ (fun _ => qemu.util.sshOutcome.sshErr)
          "/images/vm.qcow2" 10809 "/tmp/r.pid" false "" "/tmp/r.log").errorLog) ∧
    ((qemu.util.startRemoteBackupNbdServer ⟨"sdb"⟩ (fun _ => qemu.util.sshOutcome.sshErr)
        "raw" "/images/vm2.raw" 10810 "/tmp/b.pid" "" "" false "" "/tmp/b.log").result =
        Except.error () ∧
      ("Executing command failed: check [" ++ "/tmp/b.log" ++ "] for errors.") ∈
        (qemu.util.startRemoteBackupNbdServer ⟨"sdb"⟩ (fun _ => qemu.util.sshOutcome.sshErr)
          "raw" "/images/vm2.raw" 10810 "/tmp/b.pid" "" "" false "" "/tmp/b.log").errorLog) :=
  C6_remote_failure_logged_and_reraised
    (fun _ => qemu.util.sshOutcome.sshErr) (fun _ => qemu.util.sshOutcome.sshErr)
    "sda" "/images/vm.qcow2" 10809 "/tmp/r.pid" false "" "/tmp/r.log"
    "sdb" "raw" "/images/vm2.raw" 10810 "/tmp/b.pid" "" "" false "" "/tmp/b.log"
    rfl rfl

/-- C3 counterexample: a remote backup export command built with an empty
bitmap contains no end-of-options terminator element and no bitmap flag at
all — the flag is omitted entirely, refuting the claim that the
terminator replacement holds for the remote backup builder. -/
theorem C3_bitmap_terminator_counterexample :
    "--" ∉ qemu.util.startRemoteBackupNbdServerCmd ⟨"sda"⟩ "qcow2" "/images/vm.qcow2"
        10809 "/tmp/qemu-nbd-backup.pid" "" "" false "" "/tmp/qemu-nbd-backup.log" ∧
    (qemu.util.startRemoteBackupNbdServerCmd ⟨"sda"⟩ "qcow2" "/images/vm.qcow2"
        10809 "/tmp/qemu-nbd-backup.pid" "" "" false "" "/tmp/qemu-nbd-backup.log").countP
      (fun s => "--bitmap".toList.isPrefixOf s.toList) = 0 := by
  decide

/-- C3 amended: only the local backup builder replaces an unset (empty)
bitmap by the literal end-of-options terminator, producing exactly the
empty-string-bitmap argument list with the terminator in the bitmap
position; the remote backup builder instead omits the bitmap flag
entirely when the bitmap is empty and emits no terminator element. -/
theorem C3_bitmap_terminator_amended (en df dfile sock : String)
    (en2 fmt path : String) (port : Nat) (pidF ip : String) (tls : Bool) (cert logF : String)
    (h1 : en2 ≠ "--") (h2 : path ≠ "--") (h3 : pidF ≠ "--") (h4 : ip ≠ "--")
    (h5 : toString port ≠ "--") :
    (qemu.util.startBackupNbdServer ⟨en⟩ df dfile sock "").cmd =
      ["qemu-nbd", "-r", "--format=" ++ df, "-x", en, dfile, "-k", sock, "-t", "-e 2",
       "--fork", "--detect-zeroes=on", "--pid-file=" ++ (sock ++ ".pid"), "--"] ∧
    "--" ∉ qemu.util.startRemoteBackupNbdServerCmd ⟨en2⟩ fmt path port pidF "" ip tls cert logF := by
  have ha : "--" ≠ "--format=" ++ fmt := ne_append_left fmt (by decide)
  have hb : "--" ≠ qemu.util.tlsObject cert := by
    unfold qemu.util.tlsObject
    exact ne_append_both cert (by decide)
  have hc : "--" ≠ "> " ++ logF ++ " 2>&1" := ne_append_both logF (by decide)
  constructor
  · simp [qemu.util.startBackupNbdServer]
  · simp only [qemu.util.startRemoteBackupNbdServerCmd, qemu.util._addTls,
      qemu.util.tlsObject] at *
    split_ifs <;>
      simp_all [Ne.symm h1, Ne.symm h2, Ne.symm h3, Ne.symm h4, Ne.symm h5]

/-- Any string shorter than 61 characters differs from the TLS object
element, whose fixed parts alone are 61 characters long. -/
theorem ne_tlsObject_of_short (cert : String) (s : String) (hs : s.length < 61) :
    s ≠ qemu.util.tlsObject cert := by
  unfold qemu.util.tlsObject
  apply ne_append_both
  have e1 : ("tls-creds-x509,id=tls0,endpoint=server,dir=" : String).length = 43 := by
    decide
  have e2 : (",verify-peer=false" : String).length = 18 := by decide
  omega

set_option maxHeartbeats 4000000 in
/-- C4: with TLS enabled, both remote export-server commands (restore and
backup) contain exactly one tls-creds-x509 object definition and exactly
one tls-creds reference; the object element carries the literals
verify-peer=false (peer verification disabled) and endpoint=server
(server endpoint role); with TLS disabled, none of these TLS elements
appears. -/
theorem C4_tls_tokens (en tf : String) (port : Nat) (pidF cert logF : String)
    (en2 fmt dp : String) (port2 : Nat) (pidF2 bm ip cert2 logF2 : String)
    (h : ∀ x, x ∈ ([en, tf, toString port, pidF] : List String) →
      x ≠ qemu.util.tlsObject cert ∧ x ≠ "--tls-creds tls0" ∧ x ≠ "--object")
    (h2 : ∀ x, x ∈ ([en2, dp, toString port2, pidF2, ip] : List String) →
      x ≠ qemu.util.tlsObject cert2 ∧ x ≠ "--tls-creds tls0" ∧ x ≠ "--object") :
    ((qemu.util.startRemoteRestoreNbdServerCmd ⟨en⟩ tf port pidF true cert logF).count
        (qemu.util.tlsObject cert) = 1 ∧
      (qemu.util.startRemoteRestoreNbdServerCmd ⟨en⟩ tf port pidF true cert logF).count
        "--tls-creds tls0" = 1 ∧
      (qemu.util.startRemoteRestoreNbdServerCmd ⟨en⟩ tf port pidF true cert logF).count
        "--object" = 1) ∧
    ((qemu.util.startRemoteBackupNbdServerCmd ⟨en2⟩ fmt dp port2 pidF2 bm ip true cert2 logF2).count
        (qemu.util.tlsObject cert2) = 1 ∧
      (qemu.util.startRemoteBackupNbdServerCmd ⟨en2⟩ fmt dp port2 pidF2 bm ip true cert2 logF2).count
        "--tls-creds tls0" = 1 ∧
      (qemu.util.startRemoteBackupNbdServerCmd ⟨en2⟩ fmt dp port2 pidF2 bm ip true cert2 logF2).count
        "--object" = 1) ∧
    (∃ pre post : String,
      qemu.util.tlsObject cert = pre ++ "verify-peer=false" ++ post) ∧
    (∃ pre post : String,
      qemu.util.tlsObject cert = pre ++ "endpoint=server" ++ post) ∧
    ((qemu.util.startRemoteRestoreNbdServerCmd ⟨en⟩ tf port pidF false cert logF).count
        (qemu.util.tlsObject cert) = 0 ∧
      (qemu.util.startRemoteRestoreNbdServerCmd ⟨en⟩ tf port pidF false cert logF).count
        "--tls-creds tls0" = 0 ∧
      (qemu.util.startRemoteRestoreNbdServerCmd ⟨en⟩ tf port pidF false cert logF).count
        "--object" = 0) ∧
    ((qemu.util.startRemoteBackupNbdServerCmd ⟨en2⟩ fmt dp port2 pidF2 bm ip false cert2 logF2).count
        (qemu.util.tlsObject cert2) = 0 ∧
      (qemu.util.startRemoteBackupNbdServerCmd ⟨en2⟩ fmt dp port2 pidF2 bm ip false cert2 logF2).count
        "--tls-creds tls0" = 0 ∧
      (qemu.util.startRemoteBackupNbdServerCmd ⟨en2⟩ fmt dp port2 pidF2 bm ip false cert2 logF2).count
        "--object" = 0) := by
  have hen := h en (by simp)
  have htf := h tf (by simp)
  have hpo := h (toString port) (by simp)
  have hpf := h pidF (by simp)
  have hen2 := h2 en2 (by simp)
  have hdp := h2 dp (by simp)
  have hpo2 := h2 (toString port2) (by simp)
  have hpf2 := h2 pidF2 (by simp)
  have hip := h2 ip (by simp)
  have hfmtH : strHead ("--format=" ++ fmt) = some '-' := strHead_append _ (by decide)
  have hbmH : strHead ("--bitmap=" ++ bm) = some '-' := strHead_append _ (by decide)
  have hfmtG : strGet ("--format=" ++ fmt) 2 = some 'f' := by
    rw [strGet_append _ 2 (by decide)]
    decide
  have hbmG : strGet ("--bitmap=" ++ bm) 2 = some 'b' := by
    rw [strGet_append _ 2 (by decide)]
    decide
  have kfmtO : ("--format=" ++ fmt) ≠ qemu.util.tlsObject cert2 :=
    strNe_of_strHead (by rw [hfmtH, strHead_tlsObject]; decide)
  have kbmO : ("--bitmap=" ++ bm) ≠ qemu.util.tlsObject cert2 :=
    strNe_of_strHead (by rw [hbmH, strHead_tlsObject]; decide)
  have kfmtT : ("--format=" ++ fmt) ≠ "--tls-creds tls0" :=
    strNe_of_strGet 2 (by rw [hfmtG]; decide)
  have kbmT : ("--bitmap=" ++ bm) ≠ "--tls-creds tls0" :=
    strNe_of_strGet 2 (by rw [hbmG]; decide)
  have kfmtB : ("--format=" ++ fmt) ≠ "--object" :=
    strNe_of_strGet 2 (by rw [hfmtG]; decide)
  have kbmB : ("--bitmap=" ++ bm) ≠ "--object" :=
    strNe_of_strGet 2 (by rw [hbmG]; decide)
  have kredO : ∀ lf c : String, ("> " ++ lf ++ " 2>&1") ≠ qemu.util.tlsObject c :=
    fun lf c => strNe_of_strHead (by rw [strHead_redirect, strHead_tlsObject]; decide)
  have kredT : ∀ lf : String, ("> " ++ lf ++ " 2>&1") ≠ "--tls-creds tls0" :=
    fun lf => strNe_of_strHead (by rw [strHead_redirect]; decide)
  have kredB : ∀ lf : String, ("> " ++ lf ++ " 2>&1") ≠ "--object" :=
    fun lf => strNe_of_strHead (by rw [strHead_redirect]; decide)
  have kobjT : qemu.util.tlsObject cert ≠ "--tls-creds tls0" :=
    Ne.symm (ne_tlsObject_of_short cert _ (by decide))
  have kobjT2 : qemu.util.tlsObject cert2 ≠ "--tls-creds tls0" :=
    Ne.symm (ne_tlsObject_of_short cert2 _ (by decide))
  have kobjB : qemu.util.tlsObject cert ≠ "--object" :=
    Ne.symm (ne_tlsObject_of_short cert _ (by decide))
  have kobjB2 : qemu.util.tlsObject cert2 ≠ "--object" :=
    Ne.symm (ne_tlsObject_of_short cert2 _ (by decide))
  have nlit : ∀ c : String, ∀ s, s ∈ (["qemu-nbd", "-r", "--discard=unmap",
      "--format=qcow2", "-x", "-p", "-b", "--pid-file", "--fork", "--object",
      "--tls-creds tls0"] : List String) → s ≠ qemu.util.tlsObject c := by
    intro c s hs
    apply ne_tlsObject_of_short
    simp only [List.mem_cons, List.not_mem_nil, or_false] at hs
    rcases hs with rfl | rfl | rfl | rfl | rfl | rfl | rfl | rfl | rfl | rfl | rfl <;> decide
  have foldC : ("tls-creds-x509,id=tls0,endpoint=server,dir=" ++ cert ++ ",verify-peer=false")
      = qemu.util.tlsObject cert := rfl
  have foldC2 : ("tls-creds-x509,id=tls0,endpoint=server,dir=" ++ cert2 ++ ",verify-peer=false")
      = qemu.util.tlsObject cert2 := rfl
  refine ⟨⟨?_, ?_, ?_⟩, ⟨?_, ?_, ?_⟩, ?_, ?_, ⟨?_, ?_, ?_⟩, ⟨?_, ?_, ?_⟩⟩
  · simp [qemu.util.startRemoteRestoreNbdServerCmd, qemu.util._addTls, foldC,
      List.count_cons, List.count_append, nlit, hen, htf, hpo, hpf, kredO, kobjT, kobjB]
  · simp [qemu.util.startRemoteRestoreNbdServerCmd, qemu.util._addTls, foldC,
      List.count_cons, List.count_append, nlit, hen, htf, hpo, hpf, kredT, kobjT]
  · simp [qemu.util.startRemoteRestoreNbdServerCmd, qemu.util._addTls, foldC,
      List.count_cons, List.count_append, nlit, hen, htf, hpo, hpf, kredB, kobjB]
  · simp only [qemu.util.startRemoteBackupNbdServerCmd, qemu.util._addTls, reduceIte]
    split_ifs <;> first
      | contradiction
      | simp [foldC2, List.count_cons, List.count_append, nlit, hen2, hdp, hpo2, hpf2, hip,
        kredO, kobjT2, kobjB2, kfmtO, kbmO]
  · simp only [qemu.util.startRemoteBackupNbdServerCmd, qemu.util._addTls, reduceIte]
    split_ifs <;> first
      | contradiction
      | simp [foldC2, List.count_cons, List.count_append, nlit, hen2, hdp, hpo2, hpf2, hip,
        kredT, kobjT2, kfmtT, kbmT]
  · simp only [qemu.util.startRemoteBackupNbdServerCmd, qemu.util._addTls, reduceIte]
    split_ifs <;> first
      | contradiction
      | simp [foldC2, List.count_cons, List.count_append, nlit, hen2, hdp, hpo2, hpf2, hip,
        kredB, kobjB2, kfmtB, kbmB]
  · refine ⟨"tls-creds-x509,id=tls0,endpoint=server,dir=" ++ cert ++ ",", "", ?_⟩
    rw [String.append_empty,
      String.append_assoc ("tls-creds-x509,id=tls0,endpoint=server,dir=" ++ cert) ","
        "verify-peer=false"]
    rfl
  · exact ⟨"tls-creds-x509,id=tls0,", ",dir=" ++ cert ++ ",verify-peer=false", rfl⟩
  · simp [qemu.util.startRemoteRestoreNbdServerCmd, foldC,
      List.count_cons, List.count_append, nlit, hen, htf, hpo, hpf, kredO]
  · simp [qemu.util.startRemoteRestoreNbdServerCmd,
      List.count_cons, List.count_append, nlit, hen, htf, hpo, hpf, kredT]
  · simp [qemu.util.startRemoteRestoreNbdServerCmd,
      List.count_cons, List.count_append, nlit, hen, htf, hpo, hpf, kredB]
  · simp only [qemu.util.startRemoteBackupNbdServerCmd, reduceIte]
    split_ifs <;> first
      | contradiction
      | simp [foldC2, List.count_cons, List.count_append, nlit, hen2, hdp, hpo2, hpf2, hip,
        kredO, kfmtO, kbmO]
  · simp only [qemu.util.startRemoteBackupNbdServerCmd, reduceIte]
    split_ifs <;> first
      | contradiction
      | simp [List.count_cons, List.count_append, nlit, hen2, hdp, hpo2, hpf2, hip,
        kredT, kfmtT, kbmT]
  · simp only [qemu.util.startRemoteBackupNbdServerCmd, reduceIte]
    split_ifs <;> first
      | contradiction
      | simp [List.count_cons, List.count_append, nlit, hen2, hdp, hpo2, hpf2, hip,
        kredB, kfmtB, kbmB]

theorem C4_tls_tokens_witness :
    (qemu.util.startRemoteRestoreNbdServerCmd ⟨"sda"⟩ "/img.qcow2" 10809 "/tmp/p.pid" true
        "/etc/pki/qemu" "/tmp/l.log").count (qemu.util.tlsObject "/etc/pki/qemu") = 1 :=
  (C4_tls_tokens "sda" "/img.qcow2" 10809 "/tmp/p.pid" "/etc/pki/qemu" "/tmp/l.log"
    "sdb" "raw" "/img2.raw" 10810 "/tmp/p2.pid" "bitmap0" "192.168.0.5" "/etc/pki/qemu2"
    "/tmp/l2.log" (by decide) (by decide)).1.1

theorem C3_bitmap_terminator_amended_witness :
    (qemu.util.startBackupNbdServer ⟨"sda"⟩ "qcow2" "/disk.qcow2" "/tmp/sock1" "").cmd =
      ["qemu-nbd", "-r", "--format=" ++ "qcow2", "-x", "sda", "/disk.qcow2", "-k", "/tmp/sock1",
       "-t", "-e 2", "--fork", "--detect-zeroes=on",
       "--pid-file=" ++ ("/tmp/sock1" ++ ".pid"), "--"] ∧
    "--" ∉ qemu.util.startRemoteBackupNbdServerCmd ⟨"sdb"⟩ "raw" "/images/x.raw" 10810
        "/tmp/p.pid" "" "192.168.0.1" true "/etc/pki" "/tmp/l.log" :=
  C3_bitmap_terminator_amended "sda" "qcow2" "/disk.qcow2" "/tmp/sock1"
    "sdb" "raw" "/images/x.raw" 10810 "/tmp/p.pid" "192.168.0.1" true "/etc/pki" "/tmp/l.log"
    (by decide) (by decide) (by decide) (by decide) (by decide)

/-- C9: in the local backup export-server command the retry option is the
single argument-list element whose text is the flag and the fixed count 2
joined by one space, with neither piece emitted as a separate element;
and the TLS augmentation appends its credentials reference as the single
element joining the flag and the id tls0, again with neither piece a
separate element of the appended TLS part. -/
theorem C9_single_element_flags (en df dfile sock bm cert : String)
    (h : ∀ x, x ∈ ([en, dfile, sock] : List String) → x ≠ "-e" ∧ x ≠ "2") :
    ("-e 2" ∈ (qemu.util.startBackupNbdServer ⟨en⟩ df dfile sock bm).cmd ∧
      "-e" ∉ (qemu.util.startBackupNbdServer ⟨en⟩ df dfile sock bm).cmd ∧
      "2" ∉ (qemu.util.startBackupNbdServer ⟨en⟩ df dfile sock bm).cmd) ∧
    (∀ cmd0 : List String,
      qemu.util._addTls cmd0 cert =
        cmd0 ++ ["--object", qemu.util.tlsObject cert, "--tls-creds tls0"] ∧
      "--tls-creds tls0" ∈ qemu.util._addTls cmd0 cert ∧
      "--tls-creds" ∉ (["--object", qemu.util.tlsObject cert, "--tls-creds tls0"] : List String) ∧
      "tls0" ∉ (["--object", qemu.util.tlsObject cert, "--tls-creds tls0"] : List String)) := by
  have hen := h en (by simp)
  have hdf := h dfile (by simp)
  have hsk := h sock (by simp)
  have e1 : ("-e" : String) ≠ "--format=" ++ df := ne_append_left df (by decide)
  have e2 : ("-e" : String) ≠ "--bitmap=" ++ bm := ne_append_left bm (by decide)
  have e3 : ("-e" : String) ≠ "--pid-file=" ++ (sock ++ ".pid") :=
    ne_append_left _ (by decide)
  have f1 : ("2" : String) ≠ "--format=" ++ df := ne_append_left df (by decide)
  have f2 : ("2" : String) ≠ "--bitmap=" ++ bm := ne_append_left bm (by decide)
  have f3 : ("2" : String) ≠ "--pid-file=" ++ (sock ++ ".pid") :=
    ne_append_left _ (by decide)
  refine ⟨⟨?_, ?_, ?_⟩, ?_⟩
  · simp [qemu.util.startBackupNbdServer]
  · simp only [qemu.util.startBackupNbdServer]
    split_ifs <;> simp [Ne.symm hen.1, Ne.symm hdf.1, Ne.symm hsk.1, e1, e2, e3]
  · simp only [qemu.util.startBackupNbdServer]
    split_ifs <;> simp [Ne.symm hen.2, Ne.symm hdf.2, Ne.symm hsk.2, f1, f2, f3]
  · intro cmd0
    refine ⟨rfl, ?_, ?_, ?_⟩
    · simp [qemu.util._addTls]
    · simp [ne_tlsObject_of_short cert "--tls-creds" (by decide)]
    · simp [ne_tlsObject_of_short cert "tls0" (by decide)]

theorem C9_single_element_flags_witness :
    ("-e 2" ∈ (qemu.util.startBackupNbdServer ⟨"sda"⟩ "qcow2" "/disk.qcow2" "/tmp/s1" "bm0").cmd ∧
      "-e" ∉ (qemu.util.startBackupNbdServer ⟨"sda"⟩ "qcow2" "/disk.qcow2" "/tmp/s1" "bm0").cmd ∧
      "2" ∉ (qemu.util.startBackupNbdServer ⟨"sda"⟩ "qcow2" "/disk.qcow2" "/tmp/s1" "bm0").cmd) ∧
    (∀ cmd0 : List String,
      qemu.util._addTls cmd0 "/etc/pki" =
        cmd0 ++ ["--object", qemu.util.tlsObject "/etc/pki", "--tls-creds tls0"] ∧
      "--tls-creds tls0" ∈ qemu.util._addTls cmd0 "/etc/pki" ∧
      "--tls-creds" ∉ (["--object", qemu.util.tlsObject "/etc/pki", "--tls-creds tls0"] : List String) ∧
      "tls0" ∉ (["--object", qemu.util.tlsObject "/etc/pki", "--tls-creds tls0"] : List String)) :=
  C9_single_element_flags "sda" "qcow2" "/disk.qcow2" "/tmp/s1" "bm0" "/etc/pki" (by decide)
